import Mathlib

set_option autoImplicit false

/-
  Verification of the reservation API business rules of the respa
  repository (resources/api/reservation.py) and of the Exchange
  item-identifier value object (respa_exchange/ews/objs.py).

  The Python code is shallowly embedded: each serializer / permission /
  viewset method becomes an executable Lean function over an explicit
  data model; Django/DRF exceptions become an `Except` error value.
  External collaborator predicates that live on the Resource model
  (can_make_reservations, can_approve_reservations, is_admin,
  need_manual_confirmation, validate_reservation_period,
  validate_max_reservations_per_user) are fields of the embedded
  `Resource`, exactly as the reviewed file consumes them.
-/

namespace Respa

/-- The closed state enumeration of a reservation
    (`Reservation.STATE_CHOICES`). -/
inductive ReservationState where
  | requested
  | confirmed
  | denied
  | cancelled
deriving DecidableEq, Repr

/-- A request user as the reviewed code consumes it: an identity (the
    database key, also used for `user__uuid` style lookups), the global
    `is_staff` flag and the `is_authenticated()` predicate. -/
structure ApiUser where
  id : Nat
  isStaff : Bool
  isAuthenticated : Bool
deriving DecidableEq, Repr

/-- The Resource collaborator, reduced to the members the reviewed file
    calls.  `validate_reservation_period` also belongs to the resource
    but mentions `Reservation`, which is defined after `Resource`, so it
    is passed to `validate` alongside the data instead. -/
structure Resource where
  id : Nat
  need_manual_confirmation : Bool
  can_approve_reservations : ApiUser → Bool
  can_make_reservations : ApiUser → Bool
  is_admin : ApiUser → Bool
  validate_max_reservations_per_user_ok : ApiUser → Bool

/-- A stored reservation record. -/
structure Reservation where
  resource : Resource
  user : ApiUser
  begin_ : Int
  end_ : Int
  comments : String
  state : ReservationState
  created_by : ApiUser
  modified_by : ApiUser

/-- `Reservation.need_manual_confirmation()`.  Modelled from the spec:
    the Reservation model method is not part of the reviewed excerpt;
    per the spec glossary, manual confirmation is the policy of the
    reservation's resource. -/
def Reservation.need_manual_confirmation (r : Reservation) : Bool :=
  r.resource.need_manual_confirmation

/-- The error taxonomy of the reviewed file: `PermissionDenied`, the
    field/domain `ValidationError`s it raises, and the filter backend
    `ParseError`. -/
inductive ApiError where
  | permissionDenied
  | reservationInPast
  | illegalStateChange
  | commentsOnlyStaff
  | periodError
  | maxReservationsExceeded
  | cleanError
  | userDoesNotExist
  | parseError (filterName : String)
deriving DecidableEq, Repr

namespace ReservationSerializer

/-- The states an approver may move between in `validate_state`. -/
def allowed_states : List ReservationState :=
  [.requested, .confirmed, .denied]

/-- `ReservationSerializer.validate_state`: `inst?` is the serializer's
    bound instance (`self.instance`; none for a create).  `instance` is
    a Lean keyword, hence the renamed binder. -/
def validate_state (inst? : Option Reservation) (request_user : ApiUser)
    (value : ReservationState) : Except ApiError ReservationState :=
  match inst? with
  | none => .ok value
  | some inst =>
    if inst.state = value then
      .ok value
    else if inst.resource.can_approve_reservations request_user then
      if inst.state ∈ allowed_states ∧ value ∈ allowed_states then
        .ok value
      else
        .error .illegalStateChange
    else
      .error .illegalStateChange

/-- The incoming request payload for a reservation create/update, as it
    reaches `to_internal_value`: the caller-supplied `user` field is a
    raw user identifier (absent when the caller did not send one). -/
structure ReservationInput where
  resource : Resource
  user : Option Nat
  begin_ : Int
  end_ : Int
  comments : Option String
  state : Option ReservationState

/-- The serializer's deserialized (internal-value) data dictionary:
    like the input, but with the `user` field resolved to a `User`
    object. -/
structure DeserializedData where
  resource : Resource
  user : Option ApiUser
  begin_ : Int
  end_ : Int
  comments : Option String
  state : Option ReservationState

/-- `ReservationSerializer.to_internal_value`: pops the `user` field,
    deserializes the rest, then resolves the supplied user id against
    the user table (`User.objects.get`), failing with a field
    validation error when no such user exists.  `user_db` stands for
    the user table. -/
def to_internal_value (user_db : List ApiUser) (input : ReservationInput) :
    Except ApiError DeserializedData :=
  let base : DeserializedData :=
    { resource := input.resource, user := none, begin_ := input.begin_,
      end_ := input.end_, comments := input.comments, state := input.state }
  match input.user with
  | none => .ok base
  | some uid =>
    match user_db.find? (fun u => u.id == uid) with
    | some u => .ok { base with user := some u }
    | none => .error .userDoesNotExist

/-- `ReservationSerializer.validate`.  `now` is `timezone.now()`;
    `period_ok` stands for the resource's user/period restriction hook
    `validate_reservation_period(reservation, request_user, data=data)`
    (it inspects the candidate begin/end); `clean_ok` stands for the
    Reservation model's entity-level `clean(original_reservation=...)`
    check (both external to the reviewed file; `true` means the check
    passes).  The `select_for_update` row lock only serializes
    concurrent requests and has no effect in this sequential model. -/
def validate (now : Int)
    (period_ok : Option Reservation → ApiUser → Int → Int → Bool)
    (clean_ok : DeserializedData → Option Reservation → Bool)
    (request_user : ApiUser) (reservation : Option Reservation)
    (data : DeserializedData) : Except ApiError DeserializedData :=
  let resource := data.resource
  if ¬ resource.can_make_reservations request_user then
    .error .permissionDenied
  else if data.end_ < now then
    .error .reservationInPast
  else
    -- normal users cannot make reservations for other people
    let data := if ¬ resource.is_admin request_user then
        { data with user := none }
      else data
    if ¬ period_ok reservation request_user data.begin_ data.end_ then
      .error .periodError
    else if data.comments.isSome ∧ ¬ resource.is_admin request_user then
      .error .commentsOnlyStaff
    else if reservation.isNone ∧
        ¬ resource.validate_max_reservations_per_user_ok request_user then
      .error .maxReservationsExceeded
    else if ¬ clean_ok data reservation then
      .error .cleanError
    else
      .ok data

/-- The serializer's deserialization-then-validation pipeline run on a
    create or update request. -/
def deserialize_and_validate (now : Int)
    (period_ok : Option Reservation → ApiUser → Int → Int → Bool)
    (clean_ok : DeserializedData → Option Reservation → Bool)
    (request_user : ApiUser) (reservation : Option Reservation)
    (user_db : List ApiUser) (input : ReservationInput) :
    Except ApiError DeserializedData :=
  (to_internal_value user_db input).bind
    (validate now period_ok clean_ok request_user reservation)

end ReservationSerializer

namespace ReservationPermission

/-- `rest_framework.permissions.SAFE_METHODS`. -/
def SAFE_METHODS : List String := ["GET", "HEAD", "OPTIONS"]

/-- `ReservationPermission.has_object_permission`. -/
def has_object_permission (method : String) (request_user : ApiUser)
    (obj : Reservation) : Bool :=
  if method ∈ SAFE_METHODS then
    true
  else
    -- reservations that need manual confirmation and are confirmed cannot
    -- be modified or cancelled without reservation approve permission
    let cannot_approve := ¬ obj.resource.can_approve_reservations request_user
    if obj.need_manual_confirmation ∧ obj.state = .confirmed ∧ cannot_approve then
      false
    else
      obj.resource.is_admin request_user ∨ obj.user.id = request_user.id

end ReservationPermission

namespace UserFilterBackend

/-- The tokens `UserFilterBackend.filter_queryset` accepts as true for
    `is_own` (after lowercasing). -/
def true_tokens : List String := ["true", "t", "yes", "y", "1"]

/-- The tokens `UserFilterBackend.filter_queryset` accepts as false for
    `is_own` (after lowercasing). -/
def false_tokens : List String := ["false", "f", "no", "n", "0"]

/-- Python's `str.lower`, character-wise (the comparison tokens are all
    ASCII, where Python's lowering and the character-wise basic-latin
    lowering agree). -/
def lower (s : String) : String := String.mk (s.data.map Char.toLower)

/-- `UserFilterBackend.filter_queryset`.  `uuid_of` stands for Python's
    `uuid.UUID` constructor (none on a `ValueError`); a queryset is a
    list of reservations; `user_param` / `is_own_param` are the raw
    query parameters (absent when not supplied).  An empty `user`
    parameter is falsy in Python and skipped. -/
def filter_queryset (uuid_of : String → Option Nat)
    (request_user : ApiUser)
    (user_param is_own_param : Option String)
    (queryset : List Reservation) : Except ApiError (List Reservation) :=
  let step1 : Except ApiError (List Reservation) :=
    match user_param with
    | none => .ok queryset
    | some s =>
      if s.isEmpty then .ok queryset
      else
        match uuid_of s with
        | none => .error (.parseError "user")
        | some uu => .ok (queryset.filter (fun r => r.user.id == uu))
  match step1 with
  | .error e => .error e
  | .ok queryset =>
    if ¬ request_user.isAuthenticated then
      .ok queryset
    else
      match is_own_param with
      | none => .ok queryset
      | some v =>
        let v := lower v
        if v ∈ true_tokens then
          .ok (queryset.filter (fun r => r.user.id == request_user.id))
        else if v ∈ false_tokens then
          .ok (queryset.filter (fun r => r.user.id != request_user.id))
        else
          .error (.parseError "is_own")

end UserFilterBackend

namespace ReservationViewSet

/-- The visibility predicate applied by
    `ReservationViewSet.get_queryset` for a non-staff user: own
    reservations (when authenticated) plus confirmed/requested ones. -/
def visible_to_non_staff (user : ApiUser) (r : Reservation) : Bool :=
  (r.state = ReservationState.confirmed ∨ r.state = ReservationState.requested)
  ∨ (user.isAuthenticated ∧ r.user.id = user.id)

/-- `ReservationViewSet.get_queryset`. -/
def get_queryset (user : ApiUser) (queryset : List Reservation) :
    List Reservation :=
  -- staff members can see all reservations
  if user.isStaff then
    queryset
  else
    -- normal users can see only their own reservations and reservations
    -- that are confirmed or requested
    queryset.filter (visible_to_non_staff user)

/-- `ReservationViewSet.perform_create`: `serializer.save(**kwargs)`
    merges the validated data with the kwargs, the kwargs winning, so
    the caller's `state` (if any survived validation) is always
    overridden, and the owner defaults to the request user exactly when
    the validated data carries no `user`. -/
def perform_create (request_user : ApiUser)
    (vd : ReservationSerializer.DeserializedData) :
    Reservation :=
  { resource := vd.resource
    user := match vd.user with
            | some u => u
            | none => request_user
    begin_ := vd.begin_
    end_ := vd.end_
    comments := vd.comments.getD ""
    state := if vd.resource.need_manual_confirmation then
               ReservationState.requested
             else
               ReservationState.confirmed
    created_by := request_user
    modified_by := request_user }

end ReservationViewSet

/-- Modelled from the spec: `Reservation.set_state` is a Reservation
    model method that is not part of the reviewed excerpt.  Per the
    spec, a deletion request "is translated to a transition into
    CANCELLED, performed by the same state-transition authority check
    used for updates", the transition changing the state and nothing
    else (the owner-notification side effect is fire-and-forget and not
    modelled). -/
def Reservation.set_state (r : Reservation) (new_state : ReservationState)
    (_user : ApiUser) : Reservation :=
  { r with state := new_state }

namespace ReservationViewSet

/-- The field update `serializer.save(modified_by=...)` performs inside
    `perform_update` on an existing instance, after `state` has been
    popped from the validated data: each remaining validated field
    overwrites the instance's one. -/
def save_update (request_user : ApiUser) (inst : Reservation)
    (vd : ReservationSerializer.DeserializedData) : Reservation :=
  { inst with
    resource := vd.resource
    user := vd.user.getD inst.user
    begin_ := vd.begin_
    end_ := vd.end_
    comments := vd.comments.getD inst.comments
    modified_by := request_user }

/-- `ReservationViewSet.perform_update`: pops the new state (defaulting
    to the old instance's state), saves the remaining fields, then
    applies the state transition through `Reservation.set_state`. -/
def perform_update (request_user : ApiUser) (old_instance : Reservation)
    (vd : ReservationSerializer.DeserializedData) : Reservation :=
  let new_state := vd.state.getD old_instance.state
  let new_instance := save_update request_user old_instance vd
  new_instance.set_state new_state request_user

/-- `ReservationViewSet.perform_destroy` on the targeted instance. -/
def perform_destroy (request_user : ApiUser) (inst : Reservation) :
    Reservation :=
  inst.set_state ReservationState.cancelled request_user

/-- `ReservationViewSet.perform_destroy` as an operation on the stored
    table of reservations: the targeted row is transitioned, no row is
    deleted. -/
def perform_destroy_store (request_user : ApiUser)
    (store : List Reservation) (i : Fin store.length) : List Reservation :=
  store.set i (perform_destroy request_user (store.get i))

end ReservationViewSet

end Respa

namespace RespaExchange

/-- An XML element tree: tag (with its namespace prefix), attribute
    list, children in document order. -/
inductive XmlTree where
  | elem (tag : String) (attrib : List (String × String))
         (children : List XmlTree)
deriving Repr

/-- The tag of an element. -/
def XmlTree.tag : XmlTree → String
  | .elem t _ _ => t

/-- The attribute dictionary of an element (`element.attrib`); lookup
    takes the first binding, attribute keys being unique in XML. -/
def XmlTree.attrib : XmlTree → List (String × String)
  | .elem _ a _ => a

/-- The children of an element. -/
def XmlTree.children : XmlTree → List XmlTree
  | .elem _ _ c => c

mutual

/-- A node followed by its descendants, in document (preorder)
    order. -/
def descendants_or_self : XmlTree → List XmlTree
  | .elem t a c => XmlTree.elem t a c :: descendants_list c

/-- The nodes of a forest in document (preorder) order. -/
def descendants_list : List XmlTree → List XmlTree
  | [] => []
  | x :: xs => descendants_or_self x ++ descendants_list xs

end

/-- `tree.find(".//" + tag)`: ElementPath's `.//` step walks the
    *descendants* of the context node in document order — the context
    node itself is never matched — and `find` returns the first hit or
    none. -/
def XmlTree.find_descendant (tree : XmlTree) (tag : String) :
    Option XmlTree :=
  (descendants_list tree.children).find? (fun n => n.tag == tag)

/-- The element-tree `ItemID.from_tree` searches for (namespace prefix
    resolved per `NAMESPACES`). -/
def itemIdTag : String := "t:ItemId"

/-- The `ItemID` value object: `id` and `change_key` as constructed
    (`from_tree` may construct it with an absent change key, hence the
    Option). -/
structure ItemID where
  id : String
  change_key : Option String
deriving DecidableEq, Repr

/-- `ItemID.to_xml`, i.e. `T.ItemId(Id=self.id, ChangeKey=self.change_key)`:
    an `ItemId` element in the `t` namespace carrying the two
    attributes.  (lxml rejects a `None` attribute value, so only the
    present-`change_key` case corresponds to a real call; the absent
    case simply omits the attribute here.) -/
def ItemID.to_xml (x : ItemID) : XmlTree :=
  XmlTree.elem itemIdTag
    ([("Id", x.id)] ++ (match x.change_key with
                        | some ck => [("ChangeKey", ck)]
                        | none => []))
    []

/-- The exceptions `ItemID.from_tree` can raise: the explicit
    `ValueError` when no `ItemId` element is found, and the `KeyError`
    of `item_id.attrib["Id"]` when the element lacks an `Id`
    attribute. -/
inductive FromTreeError where
  | valueError
  | keyError
deriving DecidableEq, Repr

/-- `ItemID.from_tree`. -/
def ItemID.from_tree (tree : XmlTree) : Except FromTreeError ItemID :=
  match tree.find_descendant itemIdTag with
  | none => .error .valueError
  | some item_id =>
    match item_id.attrib.lookup "Id" with
    | none => .error .keyError
    | some i => .ok { id := i, change_key := item_id.attrib.lookup "ChangeKey" }

/-- Whether a tree contains an `ItemId` element at all (root included):
    the natural reading of "the tree contains an ItemId element", used
    to state what `from_tree`'s search actually ranges over. -/
def contains_ItemId (tree : XmlTree) : Bool :=
  (descendants_or_self tree).any (fun n => n.tag == itemIdTag)

end RespaExchange

namespace Respa

/-
  Concrete values used by the counterexamples and the witnesses.
-/

/-- A global-staff user; staff users administer and approve on
    `openResource`. -/
def staffApprover : ApiUser := ⟨1, true, true⟩

/-- An ordinary authenticated user. -/
def memberUser : ApiUser := ⟨2, false, true⟩

/-- An unauthenticated requester (`AnonymousUser`). -/
def anonUser : ApiUser := ⟨3, false, false⟩

/-- Another ordinary authenticated user, owner of the demo
    reservations. -/
def strangerUser : ApiUser := ⟨4, false, true⟩

/-- A resource with no manual confirmation whose administrators and
    approvers are the staff users. -/
def openResource : Resource :=
  { id := 10
    need_manual_confirmation := false
    can_approve_reservations := fun u => u.isStaff
    can_make_reservations := fun _ => true
    is_admin := fun u => u.isStaff
    validate_max_reservations_per_user_ok := fun _ => true }

/-- A manual-confirmation resource administered by the (non-staff)
    `memberUser`: a resource-scoped administrator who is not global
    staff. -/
def managedResource : Resource :=
  { id := 11
    need_manual_confirmation := true
    can_approve_reservations := fun u => u.id == 2
    can_make_reservations := fun _ => true
    is_admin := fun u => u.id == 2
    validate_max_reservations_per_user_ok := fun _ => true }

/-- A resource nobody may book. -/
def lockedResource : Resource :=
  { id := 12
    need_manual_confirmation := false
    can_approve_reservations := fun _ => false
    can_make_reservations := fun _ => false
    is_admin := fun _ => false
    validate_max_reservations_per_user_ok := fun _ => true }

/-- A requested reservation on the open resource. -/
def demoReservation : Reservation :=
  { resource := openResource, user := memberUser, begin_ := 0, end_ := 100
    comments := "", state := .requested
    created_by := memberUser, modified_by := memberUser }

/-- A cancelled reservation of `strangerUser` on the resource
    `memberUser` administers. -/
def hiddenReservation : Reservation :=
  { resource := managedResource, user := strangerUser, begin_ := 0, end_ := 100
    comments := "", state := .cancelled
    created_by := strangerUser, modified_by := strangerUser }

/-- A confirmed reservation of `strangerUser` on the manual-confirmation
    resource. -/
def confirmedManagedReservation : Reservation :=
  { resource := managedResource, user := strangerUser, begin_ := 0, end_ := 100
    comments := "", state := .confirmed
    created_by := strangerUser, modified_by := strangerUser }

/-- A create payload naming a user id (999) that matches no stored
    user. -/
def ghostUserInput : ReservationSerializer.ReservationInput :=
  { resource := openResource, user := some 999, begin_ := 0, end_ := 100
    comments := none, state := none }

/-- A create payload naming `strangerUser` by id. -/
def strangerInput : ReservationSerializer.ReservationInput :=
  { resource := openResource, user := some 4, begin_ := 0, end_ := 100
    comments := none, state := none }

/-- Candidate data whose `end` lies in the past, on the resource that
    rejects all bookers. -/
def pastLockedData : ReservationSerializer.DeserializedData :=
  { resource := lockedResource, user := none, begin_ := -10, end_ := -1
    comments := none, state := none }

/-- Candidate data whose `end` lies in the past, on the open
    resource. -/
def pastOpenData : ReservationSerializer.DeserializedData :=
  { resource := openResource, user := none, begin_ := -10, end_ := -1
    comments := none, state := none }

/-- A period hook and clean check that always pass, for concrete
    evaluations. -/
def anyPeriodOk : Option Reservation → ApiUser → Int → Int → Bool :=
  fun _ _ _ _ => true

/-- A clean check that always passes, for concrete evaluations. -/
def anyCleanOk : ReservationSerializer.DeserializedData → Option Reservation → Bool :=
  fun _ _ => true

end Respa

namespace RespaExchange

/-- A demo item identifier. -/
def demoItemID : ItemID := { id := "abc", change_key := some "ck1" }

/-- An `ItemId` element that carries no `Id` attribute. -/
def keylessItem : XmlTree := XmlTree.elem itemIdTag [("ChangeKey", "x")] []

/-- A response envelope whose only `ItemId` descendant lacks an `Id`
    attribute. -/
def demoEnvelope : XmlTree := XmlTree.elem "m:Envelope" [] [keylessItem]

end RespaExchange

namespace Respa

open ReservationSerializer ReservationPermission UserFilterBackend ReservationViewSet

/-- C1: for an existing reservation `r`, a proposed state `v` and an
    acting user `u`: (i) when `v` equals the current state, state
    validation accepts it; (ii) when `u` has the resource's
    approve-reservations capability and both the current and the
    proposed state are among requested/confirmed/denied, the change is
    accepted; (iii) in every other case where `v` differs from the
    current state, validation fails with the illegal-state error. -/
theorem validate_state_transition_rule
    (r : Reservation) (u : ApiUser) (v : ReservationState) :
    (v = r.state → validate_state (some r) u v = .ok v) ∧
    (r.resource.can_approve_reservations u = true →
      r.state ∈ allowed_states → v ∈ allowed_states →
      validate_state (some r) u v = .ok v) ∧
    (v ≠ r.state →
      ¬ (r.resource.can_approve_reservations u = true ∧
         r.state ∈ allowed_states ∧ v ∈ allowed_states) →
      validate_state (some r) u v = .error .illegalStateChange) := by
  refine ⟨fun h => ?_, fun hca h1 h2 => ?_, fun hne hnot => ?_⟩
  · subst h
    simp [validate_state]
  · by_cases hv : r.state = v
    · simp [validate_state, hv]
    · simp [validate_state, hv, hca, h1, h2]
  · have hv : ¬ (r.state = v) := fun h => hne h.symm
    by_cases hca : r.resource.can_approve_reservations u = true
    · have hin : ¬ (r.state ∈ allowed_states ∧ v ∈ allowed_states) :=
        fun h => hnot ⟨hca, h.1, h.2⟩
      simp [validate_state, hv, hca, hin]
    · simp [validate_state, hv, hca]

/-- C1 witness: a staff approver moves a requested reservation to
    confirmed. -/
theorem validate_state_transition_rule_witness :
    validate_state (some demoReservation) staffApprover .confirmed =
      .ok .confirmed :=
  (validate_state_transition_rule demoReservation staffApprover .confirmed).2.1
    rfl (by decide) (by decide)

/-- C2: object-level permission for a reservation: safe (read) methods
    are always permitted; for a mutating method, permission is denied
    when the reservation needs manual confirmation, is confirmed, and
    the actor cannot approve reservations; otherwise it is granted
    exactly when the actor administers the resource or owns the
    reservation. -/
theorem has_object_permission_rule
    (m : String) (u : ApiUser) (obj : Reservation) :
    (m ∈ SAFE_METHODS → has_object_permission m u obj = true) ∧
    (m ∉ SAFE_METHODS →
      (obj.need_manual_confirmation = true →
        obj.state = .confirmed →
        obj.resource.can_approve_reservations u = false →
        has_object_permission m u obj = false) ∧
      (¬ (obj.need_manual_confirmation = true ∧ obj.state = .confirmed ∧
          obj.resource.can_approve_reservations u = false) →
        (has_object_permission m u obj = true ↔
          obj.resource.is_admin u = true ∨ obj.user.id = u.id))) := by
  constructor
  · intro hm
    simp [has_object_permission, hm]
  · intro hm
    constructor
    · intro hmc hst hca
      simp [has_object_permission, hm, hmc, hst, hca]
    · intro hguard
      by_cases hmc : obj.need_manual_confirmation = true
      · by_cases hst : obj.state = ReservationState.confirmed
        · have hca : ¬ (obj.resource.can_approve_reservations u = false) :=
            fun h => hguard ⟨hmc, hst, h⟩
          have hca' : obj.resource.can_approve_reservations u = true := by
            cases h : obj.resource.can_approve_reservations u
            · exact absurd h hca
            · rfl
          simp [has_object_permission, hm, hmc, hst, hca']
        · simp [has_object_permission, hm, hst]
      · simp [has_object_permission, hm, hmc]

/-- C2 witness: a non-approver may not mutate a confirmed reservation
    on a manual-confirmation resource. -/
theorem has_object_permission_rule_witness :
    has_object_permission "DELETE" strangerUser confirmedManagedReservation
      = false :=
  ((has_object_permission_rule "DELETE" strangerUser
      confirmedManagedReservation).2 (by decide)).1 rfl rfl rfl

/-- C3 counterexample: `memberUser` is a resource-scoped administrator
    of `managedResource` but not global staff, and the listing hides
    from them a cancelled reservation of another user on that very
    resource — administrators do not all see every reservation, only
    global staff do. -/
theorem get_queryset_resource_admin_counterexample :
    managedResource.is_admin memberUser = true ∧
    memberUser.isStaff = false ∧
    hiddenReservation.resource.is_admin memberUser = true ∧
    get_queryset memberUser [hiddenReservation] = [] :=
  ⟨rfl, rfl, rfl, rfl⟩

/-- C3 amended: global staff see every reservation; every non-staff
    user — resource-scoped administrators included — sees, when
    authenticated, exactly their own reservations plus those in state
    confirmed or requested, and, when unauthenticated, exactly those in
    state confirmed or requested. -/
theorem get_queryset_visibility
    (u : ApiUser) (qs : List Reservation) (r : Reservation) :
    (u.isStaff = true → get_queryset u qs = qs) ∧
    (u.isStaff = false → u.isAuthenticated = true →
      (r ∈ get_queryset u qs ↔
        r ∈ qs ∧ (r.user.id = u.id ∨
          r.state = .confirmed ∨ r.state = .requested))) ∧
    (u.isStaff = false → u.isAuthenticated = false →
      (r ∈ get_queryset u qs ↔
        r ∈ qs ∧ (r.state = .confirmed ∨ r.state = .requested))) := by
  refine ⟨fun hs => ?_, fun hs ha => ?_, fun hs ha => ?_⟩
  · simp [get_queryset, hs]
  · simp [get_queryset, hs, List.mem_filter, visible_to_non_staff, ha]
    tauto
  · simp [get_queryset, hs, List.mem_filter, visible_to_non_staff, ha]

/-- C3 witness (amended): a staff member's listing keeps the cancelled
    reservation. -/
theorem get_queryset_visibility_witness :
    get_queryset staffApprover [hiddenReservation] = [hiddenReservation] :=
  (get_queryset_visibility staffApprover [hiddenReservation]
      hiddenReservation).1 rfl

/-- For a non-administrator actor, `validate` gives the same verdict
    whatever user object the deserialized data carries: the field is
    popped before any check that could read it. -/
theorem validate_discards_user (now : Int)
    (period_ok : Option Reservation → ApiUser → Int → Int → Bool)
    (clean_ok : DeserializedData → Option Reservation → Bool)
    (ru : ApiUser) (res? : Option Reservation)
    (d : DeserializedData) (x : Option ApiUser)
    (h : d.resource.is_admin ru = false) :
    validate now period_ok clean_ok ru res? { d with user := x } =
      validate now period_ok clean_ok ru res? d := by
  simp [validate, h]

/-- For a non-administrator actor, data accepted by `validate` carries
    no user object. -/
theorem validate_ok_user_none (now : Int)
    (period_ok : Option Reservation → ApiUser → Int → Int → Bool)
    (clean_ok : DeserializedData → Option Reservation → Bool)
    (ru : ApiUser) (res? : Option Reservation)
    (d d' : DeserializedData)
    (h : d.resource.is_admin ru = false)
    (hok : validate now period_ok clean_ok ru res? d = .ok d') :
    d'.user = none := by
  simp only [validate, h] at hok
  split at hok
  · exact absurd hok (by simp)
  · split at hok
    · exact absurd hok (by simp)
    · simp only [Bool.false_eq_true, not_false_eq_true, if_true] at hok
      split at hok
      · exact absurd hok (by simp)
      · split at hok
        · exact absurd hok (by simp)
        · split at hok
          · exact absurd hok (by simp)
          · split at hok
            · exact absurd hok (by simp)
            · cases hok
              rfl

/-- Deserialization keeps the resource of the input. -/
theorem to_internal_value_resource (user_db : List ApiUser)
    (input : ReservationInput) (d0 : DeserializedData)
    (h : to_internal_value user_db input = .ok d0) :
    d0.resource = input.resource := by
  simp only [to_internal_value] at h
  split at h
  · cases h
    rfl
  · split at h
    · cases h
      rfl
    · exact absurd h (by simp)

/-- C4 counterexample: `memberUser` is no administrator of
    `openResource`, yet their create request naming the nonexistent
    user id 999 raises a does-not-exist validation error instead of
    silently discarding the field. -/
theorem supplied_user_counterexample :
    openResource.is_admin memberUser = false ∧
    ghostUserInput.user = some 999 ∧
    deserialize_and_validate 0 anyPeriodOk anyCleanOk memberUser none
      [staffApprover, memberUser] ghostUserInput = .error .userDoesNotExist :=
  ⟨rfl, rfl, rfl⟩

/-- C4 amended: a caller-supplied `user` field that resolves to an
    existing user is silently discarded for a non-administrator actor —
    the request validates exactly as if the field had been omitted, and
    accepted data carry no user, so creation defaults the owner to the
    acting user; but a supplied user id matching no existing user makes
    deserialization fail with a validation error, administrator or
    not. -/
theorem supplied_user_discarded (now : Int)
    (period_ok : Option Reservation → ApiUser → Int → Int → Bool)
    (clean_ok : DeserializedData → Option Reservation → Bool)
    (ru : ApiUser) (res? : Option Reservation)
    (user_db : List ApiUser) (input : ReservationInput) (uid : Nat) :
    (input.resource.is_admin ru = false → input.user = some uid →
      (∃ u ∈ user_db, u.id = uid) →
      deserialize_and_validate now period_ok clean_ok ru res? user_db input =
        deserialize_and_validate now period_ok clean_ok ru res? user_db
          { input with user := none }) ∧
    (input.user = some uid → (∀ u ∈ user_db, u.id ≠ uid) →
      deserialize_and_validate now period_ok clean_ok ru res? user_db input =
        .error .userDoesNotExist) ∧
    (∀ d', input.resource.is_admin ru = false →
      deserialize_and_validate now period_ok clean_ok ru res? user_db input =
        .ok d' →
      d'.user = none) ∧
    (∀ d : DeserializedData, d.user = none →
      (perform_create ru d).user = ru) := by
  refine ⟨fun hadm hu hex => ?_, fun hu hnone => ?_,
    fun d' hadm hok => ?_, fun d hd => ?_⟩
  · obtain ⟨u0, hu0mem, hu0id⟩ := hex
    have hsome : (user_db.find? (fun u => u.id == uid)).isSome := by
      rw [List.find?_isSome]
      exact ⟨u0, hu0mem, by simp [hu0id]⟩
    obtain ⟨u1, hfind⟩ := Option.isSome_iff_exists.mp hsome
    simp only [deserialize_and_validate, to_internal_value, hu, hfind,
      Except.bind]
    exact validate_discards_user now period_ok clean_ok ru res?
      { resource := input.resource, user := none, begin_ := input.begin_,
        end_ := input.end_, comments := input.comments, state := input.state }
      (some u1) hadm
  · have hfind : user_db.find? (fun u => u.id == uid) = none := by
      rw [List.find?_eq_none]
      intro u hmem
      simp [hnone u hmem]
    simp [deserialize_and_validate, to_internal_value, hu, hfind,
      Except.bind]
  · cases hti : to_internal_value user_db input with
    | error e =>
      rw [deserialize_and_validate, hti] at hok
      exact absurd hok (by simp [Except.bind])
    | ok d0 =>
      rw [deserialize_and_validate, hti] at hok
      simp only [Except.bind] at hok
      have hres : d0.resource = input.resource :=
        to_internal_value_resource user_db input d0 hti
      exact validate_ok_user_none now period_ok clean_ok ru res? d0 d'
        (hres ▸ hadm) hok
  · simp [perform_create, hd]

/-- C4 witness (amended): with user 4 existing, the non-administrator
    `memberUser` naming them changes nothing against omitting the
    field. -/
theorem supplied_user_discarded_witness :
    deserialize_and_validate 0 anyPeriodOk anyCleanOk memberUser none
      [staffApprover, strangerUser] strangerInput =
    deserialize_and_validate 0 anyPeriodOk anyCleanOk memberUser none
      [staffApprover, strangerUser] { strangerInput with user := none } :=
  (supplied_user_discarded 0 anyPeriodOk anyCleanOk memberUser none
      [staffApprover, strangerUser] strangerInput 4).1 rfl rfl (by decide)

/-- C5: a created reservation starts requested when its resource needs
    manual confirmation and confirmed otherwise; the state of the
    validated data — whatever the caller supplied — is overridden and
    never reaches the stored record. -/
theorem perform_create_initial_state
    (ru : ApiUser) (vd : DeserializedData) :
    ((perform_create ru vd).state =
      if vd.resource.need_manual_confirmation then
        ReservationState.requested
      else
        ReservationState.confirmed) ∧
    (∀ s : Option ReservationState,
      (perform_create ru { vd with state := s }).state =
        (perform_create ru vd).state) := by
  exact ⟨rfl, fun s => rfl⟩

/-- C6: a delete request transitions the targeted row to cancelled via
    the very `set_state` used by `perform_update`'s state change: the
    store keeps its length, every other row is untouched, and on the
    targeted row every field except the state is unchanged. -/
theorem perform_destroy_cancels_in_place
    (ru : ApiUser) (store : List Reservation) (i : Fin store.length) :
    (perform_destroy_store ru store i).length = store.length ∧
    (perform_destroy_store ru store i).get? i.val =
      some ((store.get i).set_state .cancelled ru) ∧
    (∀ j : Nat, j ≠ i.val →
      (perform_destroy_store ru store i).get? j = store.get? j) ∧
    (perform_destroy ru (store.get i)).state = .cancelled ∧
    (perform_destroy ru (store.get i)).resource = (store.get i).resource ∧
    (perform_destroy ru (store.get i)).user = (store.get i).user ∧
    (perform_destroy ru (store.get i)).begin_ = (store.get i).begin_ ∧
    (perform_destroy ru (store.get i)).end_ = (store.get i).end_ ∧
    (perform_destroy ru (store.get i)).comments = (store.get i).comments ∧
    (perform_destroy ru (store.get i)).created_by = (store.get i).created_by ∧
    (perform_destroy ru (store.get i)).modified_by =
      (store.get i).modified_by := by
  refine ⟨?_, ?_, fun j hj => ?_, rfl, rfl, rfl, rfl, rfl, rfl, rfl, rfl⟩
  · simp [perform_destroy_store]
  · simp [perform_destroy_store, perform_destroy]
  · simp only [perform_destroy_store, List.get?_eq_getElem?]
    exact List.getElem?_set_ne (fun h => hj h.symm)

/-- C6 witness: deleting the only stored reservation keeps the row and
    leaves index 1 (out of range on both sides) alike. -/
theorem perform_destroy_cancels_in_place_witness :
    (perform_destroy_store staffApprover [demoReservation]
        ⟨0, by decide⟩).get? 1 = [demoReservation].get? 1 :=
  (perform_destroy_cancels_in_place staffApprover [demoReservation]
      ⟨0, by decide⟩).2.2.1 1 (by decide)

/-- C7 counterexample: on `lockedResource` nobody passes the
    can-make-reservations gate, so candidate data ending in the past is
    rejected with the authorization error, not the cannot-reserve-in-
    the-past domain error the claim promises for every resource and
    user. -/
theorem past_reservation_counterexample :
    pastLockedData.end_ < 0 ∧
    validate 0 anyPeriodOk anyCleanOk memberUser none pastLockedData =
      .error .permissionDenied ∧
    ApiError.permissionDenied ≠ ApiError.reservationInPast :=
  ⟨by decide, rfl, by decide⟩

/-- C7 amended: candidate data whose `end` lies before the current time
    never validates — the outcome is either the authorization error of
    the prior can-make-reservations gate or the cannot-reserve-in-the-
    past domain error; when the actor passes that gate, it is precisely
    the past-reservation domain error. -/
theorem past_reservation_rejected (now : Int)
    (period_ok : Option Reservation → ApiUser → Int → Int → Bool)
    (clean_ok : DeserializedData → Option Reservation → Bool)
    (ru : ApiUser) (res? : Option Reservation)
    (d : DeserializedData) (h : d.end_ < now) :
    (validate now period_ok clean_ok ru res? d = .error .permissionDenied ∨
     validate now period_ok clean_ok ru res? d = .error .reservationInPast) ∧
    (d.resource.can_make_reservations ru = true →
      validate now period_ok clean_ok ru res? d =
        .error .reservationInPast) := by
  constructor
  · by_cases hcm : d.resource.can_make_reservations ru = true
    · right
      simp [validate, hcm, h]
    · left
      simp [validate, hcm]
  · intro hcm
    simp [validate, hcm, h]

/-- C7 witness (amended): `memberUser` may book `openResource`, and
    past-ending data is rejected with the domain error. -/
theorem past_reservation_rejected_witness :
    validate 0 anyPeriodOk anyCleanOk memberUser none pastOpenData =
      .error .reservationInPast :=
  (past_reservation_rejected 0 anyPeriodOk anyCleanOk memberUser none
      pastOpenData (by decide)).2 rfl

/-- No `is_own` token reads both as true and as false. -/
theorem false_tokens_not_true_tokens (s : String)
    (hs : s ∈ false_tokens) : s ∉ true_tokens := by
  fin_cases hs <;> exact fun ht => absurd ht (by decide)

/-- C8 counterexample: an unauthenticated request carrying the
    unparseable `is_own` token "bogus" is not rejected — the parameter
    is ignored outright, because the backend returns before reading
    `is_own` for unauthenticated users. -/
theorem is_own_unauthenticated_counterexample :
    anonUser.isAuthenticated = false ∧
    filter_queryset (fun _ => none) anonUser none (some "bogus")
      [hiddenReservation] = .ok [hiddenReservation] ∧
    filter_queryset (fun _ => none) anonUser none (some "bogus")
      [hiddenReservation] ≠ .error (.parseError "is_own") :=
  ⟨rfl, rfl, fun h => Except.noConfusion h⟩

/-- C8 amended: for an authenticated requester (and no `user` filter),
    an `is_own` token lowercasing into true/t/yes/y/1 restricts the
    listing to exactly the requester's reservations, one lowercasing
    into false/f/no/n/0 excludes exactly those, and any other token is
    a parse error; for an unauthenticated requester the `is_own`
    parameter is ignored entirely. -/
theorem is_own_filter_rule (uuid_of : String → Option Nat)
    (u : ApiUser) (v : String) (qs : List Reservation) :
    (u.isAuthenticated = true →
      (lower v ∈ true_tokens →
        ∃ l, filter_queryset uuid_of u none (some v) qs = .ok l ∧
          ∀ r : Reservation, r ∈ l ↔ r ∈ qs ∧ r.user.id = u.id) ∧
      (lower v ∈ false_tokens →
        ∃ l, filter_queryset uuid_of u none (some v) qs = .ok l ∧
          ∀ r : Reservation, r ∈ l ↔ r ∈ qs ∧ r.user.id ≠ u.id) ∧
      (lower v ∉ true_tokens → lower v ∉ false_tokens →
        filter_queryset uuid_of u none (some v) qs =
          .error (.parseError "is_own"))) ∧
    (u.isAuthenticated = false →
      filter_queryset uuid_of u none (some v) qs = .ok qs) := by
  constructor
  · intro hauth
    refine ⟨fun ht => ?_, fun hf => ?_, fun hnt hnf => ?_⟩
    · refine ⟨qs.filter (fun r => r.user.id == u.id),
        by simp [filter_queryset, hauth, ht], fun r => ?_⟩
      simp [List.mem_filter]
    · have hnt : lower v ∉ true_tokens :=
        false_tokens_not_true_tokens (lower v) hf
      refine ⟨qs.filter (fun r => r.user.id != u.id),
        by simp [filter_queryset, hauth, hnt, hf], fun r => ?_⟩
      simp [List.mem_filter]
    · simp [filter_queryset, hauth, hnt, hnf]
  · intro hauth
    simp [filter_queryset, hauth]

/-- C8 witness (amended): token "1" keeps exactly `memberUser`'s own
    reservations. -/
theorem is_own_filter_rule_witness :
    ∃ l, filter_queryset (fun _ => none) memberUser none (some "1")
        [hiddenReservation] = .ok l ∧
      ∀ r : Reservation, r ∈ l ↔
        r ∈ [hiddenReservation] ∧ r.user.id = memberUser.id :=
  ((is_own_filter_rule (fun _ => none) memberUser "1"
      [hiddenReservation]).1 rfl).1 (by decide)

end Respa

namespace RespaExchange

/-- C9 counterexample: `from_tree` applied to the bare element
    `to_xml` produces raises the ValueError instead of returning the
    item id: the `.//` search ranges over descendants only and never
    matches the root element itself. -/
theorem from_tree_to_xml_counterexample :
    ItemID.from_tree demoItemID.to_xml = .error .valueError ∧
    ItemID.from_tree demoItemID.to_xml ≠ .ok demoItemID :=
  ⟨rfl, fun h => Except.noConfusion h⟩

/-- C9 amended: for every id and change key, `from_tree` recovers them
    from any tree in which the element produced by `to_xml` is the
    first `ItemId` element among the proper descendants of the root in
    document order — in particular from any tree whose root has that
    element as its only child; applied to the bare `to_xml` element
    itself, `from_tree` raises the ValueError, the `.//` search never
    matching the root.  (When another `ItemId` element precedes the
    produced one, `find` returns that other element instead, so
    first-ness is as strong as the round-trip gets.) -/
theorem from_tree_to_xml_roundtrip (idv ck : String) (tree : XmlTree) :
    ((descendants_list tree.children).find?
        (fun n => n.tag == itemIdTag) =
        some (ItemID.to_xml ⟨idv, some ck⟩) →
      ItemID.from_tree tree = .ok ⟨idv, some ck⟩) ∧
    (∀ (wtag : String) (wattrs : List (String × String)),
      ItemID.from_tree
          (XmlTree.elem wtag wattrs [ItemID.to_xml ⟨idv, some ck⟩]) =
        .ok ⟨idv, some ck⟩) ∧
    ItemID.from_tree (ItemID.to_xml ⟨idv, some ck⟩) =
      .error .valueError := by
  refine ⟨fun hfind => ?_, fun wtag wattrs => ?_, ?_⟩
  · simp [ItemID.from_tree, XmlTree.find_descendant, hfind,
      ItemID.to_xml, XmlTree.attrib, List.lookup]
  · simp [ItemID.from_tree, ItemID.to_xml, XmlTree.find_descendant,
      XmlTree.children, descendants_list, descendants_or_self,
      List.find?, XmlTree.tag, itemIdTag, XmlTree.attrib, List.lookup]
  · simp [ItemID.from_tree, ItemID.to_xml, XmlTree.find_descendant,
      XmlTree.children, descendants_list]

/-- C9 witness (amended): in an envelope whose first `ItemId`
    descendant is the element `to_xml` produced (another `ItemId`
    element follows it), `from_tree` recovers the original item id. -/
theorem from_tree_to_xml_roundtrip_witness :
    ItemID.from_tree
        (XmlTree.elem "m:Envelope" [] [demoItemID.to_xml, keylessItem]) =
      .ok demoItemID :=
  (from_tree_to_xml_roundtrip "abc" "ck1"
      (XmlTree.elem "m:Envelope" [] [demoItemID.to_xml, keylessItem])).1 rfl

/-- C10 counterexample: a tree that does contain an `ItemId` element —
    as its root — on which `from_tree` nevertheless raises the
    ValueError, against the claimed "raises exactly when the tree
    contains no ItemId element". -/
theorem from_tree_root_counterexample :
    contains_ItemId demoItemID.to_xml = true ∧
    ItemID.from_tree demoItemID.to_xml = .error .valueError :=
  ⟨rfl, rfl⟩

/-- C10 amended: `from_tree` raises the ValueError exactly when no
    `ItemId` element occurs among the proper descendants of the root
    (the root itself is never searched); otherwise, with `e` the first
    such descendant in document order, a missing `Id` attribute raises
    the key lookup error, and an `Id` value `i` yields the item id `i`
    with `e`'s `ChangeKey` attribute as change key — none when
    absent. -/
theorem from_tree_error_and_result (tree : XmlTree) :
    (ItemID.from_tree tree = .error .valueError ↔
      ∀ n ∈ descendants_list tree.children, n.tag ≠ itemIdTag) ∧
    (∀ e, (descendants_list tree.children).find?
        (fun n => n.tag == itemIdTag) = some e →
      (e.attrib.lookup "Id" = none →
        ItemID.from_tree tree = .error .keyError) ∧
      (∀ i, e.attrib.lookup "Id" = some i →
        ItemID.from_tree tree = .ok ⟨i, e.attrib.lookup "ChangeKey"⟩)) := by
  constructor
  · cases hfind : (descendants_list tree.children).find?
        (fun n => n.tag == itemIdTag) with
    | none =>
      simp only [ItemID.from_tree, XmlTree.find_descendant, hfind]
      rw [List.find?_eq_none] at hfind
      constructor
      · intro _ n hn
        simpa using hfind n hn
      · intro _
        trivial
    | some e =>
      have hmem : e ∈ descendants_list tree.children :=
        List.mem_of_find?_eq_some hfind
      have htag : e.tag = itemIdTag := by
        have := List.find?_some hfind
        simpa using this
      simp only [ItemID.from_tree, XmlTree.find_descendant, hfind]
      constructor
      · intro h
        cases hid : e.attrib.lookup "Id" <;> simp [hid] at h
      · intro h
        exact absurd htag (h e hmem)
  · intro e hfind
    simp only [ItemID.from_tree, XmlTree.find_descendant, hfind]
    constructor
    · intro hid
      simp [hid]
    · intro i hid
      simp [hid]

/-- C10 witness (amended): in the demo envelope the first (and only)
    `ItemId` descendant lacks an `Id` attribute, so `from_tree` raises
    the key lookup error. -/
theorem from_tree_error_and_result_witness :
    ItemID.from_tree demoEnvelope = .error .keyError :=
  ((from_tree_error_and_result demoEnvelope).2 keylessItem rfl).1 rfl

end RespaExchange
